import Mathlib

/-! Shallow embedding of src/bot.py from the discord-github-bot repository:
the webhook route, the event dispatch chain, the projection handlers and the
thread lookup and creation logic, together with theorems settling the frozen
claims about them.

Conventions of the embedding: a decoded JSON payload is a record of optional
fields, one per key the code reads; Discord state is the destination channel
(its thread list plus a fresh-id counter); outbound platform calls are
recorded as a list of operations; Python exceptions are values of `PyError`
carried in `Except`. Several call sites in bot.py invoke methods with fewer
positional arguments than their definitions require; Python raises TypeError
at such a call before the callee body runs, and the embedding models each such
call site as a definition returning that error (each one cites the line
numbers of the call and of the definition it fails against). -/

namespace Bot

/-- Fields of a GitHub pull_request object that bot.py reads: number, title,
the merged flag, html_url and the author login (pr.user.login). -/
structure PR where
  number : Nat
  title : String
  merged : Bool
  html_url : String
  user_login : String
  deriving DecidableEq

/-- Fields of a review object that bot.py reads: state, body (None possible)
and the reviewer login. -/
structure Review where
  state : String
  body : Option String
  user_login : String
  deriving DecidableEq

/-- Fields of a comment object that bot.py reads: author login and body. -/
structure Comment where
  user_login : String
  body : String
  deriving DecidableEq

/-- Fields of an issue object: its number, plus a flag recording whether the
JSON carries an issue.pull_request sub-object (the linkage GitHub adds when
the issue is really a pull request). bot.py never reads that flag. -/
structure Issue where
  number : Nat
  has_pull_request : Bool
  deriving DecidableEq

/-- A decoded webhook payload: each field is `some` exactly when the
corresponding JSON key is present. -/
structure Payload where
  repository_full_name : Option String
  action : Option String
  pull_request : Option PR
  review : Option Review
  comment : Option Comment
  issue : Option Issue
  ref : Option String
  deriving DecidableEq

/-- A Discord thread as visible through channel.threads. -/
structure Thread where
  id : Nat
  name : String
  archived : Bool
  locked : Bool
  deriving DecidableEq

/-- The destination channel: its current thread list plus a counter supplying
identifiers for newly created threads. -/
structure Channel where
  threads : List Thread
  nextId : Nat
  deriving DecidableEq

/-- Outbound Discord operations performed by the handlers. -/
inductive Op where
  | createThread (name : String)
  | threadSend (threadId : Nat) (message : String)
  | channelSend (message : String)
  | editThread (threadId : Nat) (archived locked : Bool) (newName : String)
  deriving DecidableEq

/-- Python exceptions relevant to this code. -/
inductive PyError where
  | typeError (message : String)
  | keyError (key : String)
  deriving DecidableEq

/-- Outcome of the two platform calls inside close_pr_thread (bot.py 121-122):
both succeed, thread.send raises, or thread.edit raises. The except clauses at
lines 124-129 swallow whichever exception occurs. -/
inductive CloseOutcome where
  | ok
  | sendRaises
  | editRaises
  deriving DecidableEq

/-- Whether future.result(timeout=60) in the Flask route (bot.py 255) returned
within the 60 second bound or raised a timeout error. -/
inductive WaitOutcome where
  | completed
  | timedOut
  deriving DecidableEq

/-- An HTTP response of the Flask route: body and status code. -/
structure HttpResponse where
  body : String
  status : Nat
  deriving DecidableEq

/-- An inbound POST /webhook request: the decoded JSON payload plus the parts
the route never reads (the signature header and the raw body bytes). -/
structure WebhookRequest where
  payload : Payload
  signature_header : Option String
  raw_body : List Nat
  deriving DecidableEq

/-- Python str.startswith for plain strings: character-list prefix test. -/
def pyStartsWith (s pre : String) : Bool :=
  pre.data.isPrefixOf s.data

/-- Python str.split with a one-character separator, on character lists: an
empty input gives one empty field, and every separator occurrence starts a new
field. -/
def splitChars (sep : Char) : List Char → List (List Char)
  | [] => [[]]
  | c :: rest =>
    match splitChars sep rest with
    | [] => [[c]]
    | g :: gs => if c = sep then [] :: g :: gs else (c :: g) :: gs

/-- bot.py 94: branch = ref.split("/")[-1], the last slash-delimited segment
of the ref string. -/
def branchOfRef (ref : String) : String :=
  String.mk ((splitChars '/' ref.data).getLastD [])

/-- Python str.capitalize for the ASCII strings used here: first character
upper-cased, the rest lower-cased. -/
def pyCapitalize (s : String) : String :=
  match s.data with
  | [] => ""
  | c :: rest => String.mk (c.toUpper :: rest.map Char.toLower)

/-- The search name computed in get_thread (bot.py 173): the name-key of a PR
thread up to and including the colon, with no title. -/
def lookupName (repoName : String) (number : Nat) : String :=
  "[" ++ repoName ++ "] PR #" ++ toString number ++ ":"

/-- The full thread name computed in create_pr_thread (bot.py 204): the
name-key followed by the PR title. -/
def prThreadName (repoName : String) (number : Nat) (title : String) : String :=
  "[" ++ repoName ++ "] PR #" ++ toString number ++ ": " ++ title

/-- bot.py 216: the introductory message sent into a newly created PR
thread; it contains the html URL and the author login. -/
def introMessage (pr : PR) : String :=
  "A new Pull Request is live here: " ++ pr.html_url ++ " and created by " ++
    pr.user_login ++ "."

/-- bot.py 120: the closure message, branching on the merged flag. -/
def closureMessage (pr : PR) : String :=
  "PR #" ++ toString pr.number ++ " has been " ++
    (if pr.merged then "merged" else "closed") ++ "."

/-- bot.py 183-185: the review message, with capitalized state and a
placeholder when the body is None or empty (both are falsy in Python). -/
def reviewMessage (review : Review) : String :=
  "New review by " ++ review.user_login ++ " - " ++ pyCapitalize review.state ++
    ":\n" ++
    (match review.body with
     | some b => if b = "" then "No comment provided." else b
     | none => "No comment provided.")

/-- bot.py 191: the comment message. -/
def commentMessage (comment : Comment) : String :=
  "New comment by " ++ comment.user_login ++ ":\n" ++ comment.body

/-- bot.py 234: the environment update message. -/
def environmentUpdateMessage (branch : String) : String :=
  "Environment update: " ++ branch ++ " branch has been updated."

/-- get_thread (bot.py 171-179): a linear scan of channel.threads returning
the first thread whose name starts with the search name; the pr argument is
read only for its number. Returns none when no thread matches. -/
def get_thread (channel : Channel) (number : Nat) (repoName : String) :
    Option Thread :=
  channel.threads.find? (fun t => pyStartsWith t.name (lookupName repoName number))

/-- create_pr_thread (bot.py 195-221): the destination channel is modelled as
already resolved (get_channel succeeding). The duplicate check
discord.utils.get(channel.threads, name=thread_name) compares the FULL name
for equality; on a hit the existing thread is returned with no side effect, on
a miss a public thread is created with the full name and the introductory
message is sent into it. Platform calls are modelled as succeeding. -/
def create_pr_thread (pr : PR) (repoName : String) (channel : Channel) :
    Option Thread × Channel × List Op :=
  let name := prThreadName repoName pr.number pr.title
  match channel.threads.find? (fun t => t.name == name) with
  | some t => (some t, channel, [])
  | none =>
    let t : Thread :=
      { id := channel.nextId, name := name, archived := false, locked := false }
    (some t,
     { threads := channel.threads ++ [t], nextId := channel.nextId + 1 },
     [Op.createThread name, Op.threadSend t.id (introMessage pr)])

/-- bot.py 49 and 82 call self.create_pr_thread(pr), but create_pr_thread
(bot.py 195) requires two positional arguments (pr, repo_name); Python raises
TypeError at the call, before any thread logic runs. -/
def create_pr_thread_missing_repo (_pr : PR) (_channel : Channel) :
    Except PyError (Option Thread × Channel × List Op) :=
  Except.error (PyError.typeError
    "create_pr_thread() missing 1 required positional argument: repo_name")

/-- bot.py 109 and 224 call self.get_thread(channel, pr), but get_thread
(bot.py 171) requires three positional arguments (channel, pr, repo_name);
Python raises TypeError at the call. -/
def get_thread_missing_repo (_channel : Channel) (_number : Nat) :
    Except PyError (Option Thread) :=
  Except.error (PyError.typeError
    "get_thread() missing 1 required positional argument: repo_name")

/-- bot.py 84 calls self.close_pr_thread(pr), but close_pr_thread (bot.py 117)
requires two positional arguments (pr, thread); Python raises TypeError at the
call. -/
def close_pr_thread_missing_thread (_pr : PR) :
    Except PyError (Channel × List Op) :=
  Except.error (PyError.typeError
    "close_pr_thread() missing 1 required positional argument: thread")

/-- bot.py 86 calls self.add_comment_to_thread(pr, data[comment]), but
add_comment_to_thread (bot.py 189) requires four positional arguments
(pr, comment, thread, repo_name); Python raises TypeError at the call. -/
def add_comment_to_thread_missing_args (_pr : PR) (_comment : Comment) :
    Except PyError (Channel × List Op) :=
  Except.error (PyError.typeError
    "add_comment_to_thread() missing 2 required positional arguments: thread and repo_name")

/-- close_pr_thread (bot.py 117-129): sends the closure message into the
thread, then edits the thread to archived and locked while renaming it to the
CLOSED marker prepended to its current name. The three except clauses
(Forbidden, HTTPException, Exception) swallow any exception, so the function
always returns normally; the CloseOutcome argument selects which platform
call, if any, raises. -/
def close_pr_thread (pr : PR) (thread : Thread) (channel : Channel)
    (out : CloseOutcome) : Channel × List Op :=
  match out with
  | CloseOutcome.sendRaises => (channel, [])
  | CloseOutcome.editRaises =>
    (channel, [Op.threadSend thread.id (closureMessage pr)])
  | CloseOutcome.ok =>
    let newName := "[CLOSED] " ++ thread.name
    ({ channel with
        threads := channel.threads.map (fun u =>
          if u.id == thread.id then
            { u with archived := true, locked := true, name := newName }
          else u) },
     [Op.threadSend thread.id (closureMessage pr),
      Op.editThread thread.id true true newName])

/-- handle_pr_closure (bot.py 105-115): resolves the channel, then calls
self.get_thread(channel, pr) with the repo_name argument missing; the
resulting TypeError is swallowed by the catch-all except at line 114, so the
event has no effect. The dead branches mirror the remaining source lines. -/
def handle_pr_closure (pr : PR) (channel : Channel) (out : CloseOutcome) :
    Channel × List Op :=
  match get_thread_missing_repo channel pr.number with
  | Except.error _ => (channel, [])
  | Except.ok none => (channel, [])
  | Except.ok (some t) => close_pr_thread pr t channel out

/-- handle_pull_request (bot.py 75-90): reads data.action and
data.pull_request (a missing key raises KeyError to the caller), then
dispatches on the action; every branch calls a method with too few positional
arguments, and the resulting TypeError is swallowed by the except clause at
line 89, so each branch leaves the channel untouched and emits nothing. -/
def handle_pull_request (data : Payload) (channel : Channel) :
    Except PyError (Channel × List Op) :=
  match data.action, data.pull_request with
  | some action, some pr =>
    Except.ok
      (if action = "opened" then
        match create_pr_thread_missing_repo pr channel with
        | Except.ok r => (r.2.1, r.2.2)
        | Except.error _ => (channel, [])
      else if action = "closed" then
        match close_pr_thread_missing_thread pr with
        | Except.ok r => r
        | Except.error _ => (channel, [])
      else if action = "created" then
        match data.comment with
        | some c =>
          (match add_comment_to_thread_missing_args pr c with
           | Except.ok r => r
           | Except.error _ => (channel, []))
        | none => (channel, [])
      else (channel, []))
  | _, _ => Except.error (PyError.keyError "action")

/-- handle_push (bot.py 92-103): the branch is the last slash-delimited
segment of data.ref (a missing ref key raises KeyError to the caller); the
environment update message is sent to the configured channel exactly when the
branch is main, test or develop, and pushes to any other branch are only
logged. The destination channel is modelled as resolving successfully. -/
def handle_push (data : Payload) (channel : Channel) :
    Except PyError (Channel × List Op) :=
  match data.ref with
  | none => Except.error (PyError.keyError "ref")
  | some ref =>
    let branch := branchOfRef ref
    if branch = "main" ∨ branch = "test" ∨ branch = "develop" then
      Except.ok (channel, [Op.channelSend (environmentUpdateMessage branch)])
    else
      Except.ok (channel, [])

/-- handle_pr_review (bot.py 131-145): reads data.pull_request, data.review
and data.repository.full_name before its try block (a missing key raises
KeyError to the caller); then looks the thread up by name-key and appends the
review message when found, or logs a warning and drops the event when not. -/
def handle_pr_review (data : Payload) (channel : Channel) :
    Except PyError (Channel × List Op) :=
  match data.pull_request with
  | none => Except.error (PyError.keyError "pull_request")
  | some pr =>
    match data.review with
    | none => Except.error (PyError.keyError "review")
    | some review =>
      match data.repository_full_name with
      | none => Except.error (PyError.keyError "repository")
      | some repoName =>
        match get_thread channel pr.number repoName with
        | some t => Except.ok (channel, [Op.threadSend t.id (reviewMessage review)])
        | none => Except.ok (channel, [])

/-- The PR-number selection made at bot.py 149-154: the issue number when an
issue object is present, else the pull_request number, else none. No check of
any issue.pull_request linkage is made. -/
def commentEventNumber (data : Payload) : Option Nat :=
  match data.issue with
  | some i => some i.number
  | none => Option.map PR.number data.pull_request

/-- handle_pr_comment (bot.py 147-169): reads data.repository.full_name (a
missing key raises KeyError to the caller), picks the PR number per
commentEventNumber — dropping the event with a warning when neither an issue
nor a pull_request is present — reads the comment object, then looks the
thread up by name-key and appends the comment message when found, or logs a
warning and drops the event when not. -/
def handle_pr_comment (data : Payload) (channel : Channel) :
    Except PyError (Channel × List Op) :=
  match data.repository_full_name with
  | none => Except.error (PyError.keyError "repository")
  | some repoName =>
    match commentEventNumber data with
    | none => Except.ok (channel, [])
    | some prNumber =>
      match data.comment with
      | none => Except.error (PyError.keyError "comment")
      | some c =>
        match get_thread channel prNumber repoName with
        | some t => Except.ok (channel, [Op.threadSend t.id (commentMessage c)])
        | none => Except.ok (channel, [])

/-- get_or_create_thread (bot.py 223-229): calls self.get_thread(channel, pr)
and, on a miss, self.create_pr_thread(pr); both calls omit required positional
arguments and the function has no try block, so the TypeError from the first
call always propagates to the caller. -/
def get_or_create_thread (channel : Channel) (pr : PR) :
    Except PyError (Option Thread × Channel × List Op) :=
  match get_thread_missing_repo channel pr.number with
  | Except.error e => Except.error e
  | Except.ok (some t) => Except.ok (some t, channel, [])
  | Except.ok none => create_pr_thread_missing_repo pr channel

/-- The outer except clause of handle_github_event (bot.py 72-73): any
exception escaping a branch is logged and swallowed, leaving the channel
untouched and emitting nothing. -/
def caughtByDispatcher (channel : Channel)
    (r : Except PyError (Channel × List Op)) : Channel × List Op :=
  match r with
  | Except.ok v => v
  | Except.error _ => (channel, [])

/-- handle_github_event (bot.py 53-73): the elif dispatch chain. A payload
with both pull_request and action keys is a PR-family event, and only the
actions opened and closed/merged do anything; otherwise the review, comment
and ref keys are tried in that order; anything else is logged as an unknown
event. The whole body sits in a try block whose except swallows every
exception. -/
def handle_github_event (data : Payload) (channel : Channel)
    (out : CloseOutcome) : Channel × List Op :=
  match data.pull_request, data.action with
  | some pr, some action =>
    if action = "opened" then
      caughtByDispatcher channel (handle_pull_request data channel)
    else if action = "closed" ∨ action = "merged" then
      handle_pr_closure pr channel out
    else
      (channel, [])
  | _, _ =>
    if data.review.isSome then
      caughtByDispatcher channel (handle_pr_review data channel)
    else if data.comment.isSome then
      caughtByDispatcher channel (handle_pr_comment data channel)
    else if data.ref.isSome then
      caughtByDispatcher channel (handle_push data channel)
    else
      (channel, [])

/-- The POST /webhook Flask route (bot.py 247-261): parses the JSON body,
dispatches handle_github_event onto the bot event loop, waits up to 60
seconds — catching both the timeout and any other exception — and returns an
empty body with status 200 unconditionally. The route never reads the
signature header or the raw request bytes, and the dispatched coroutine still
runs to completion on the bot loop when the wait times out, so the projection
effects happen under either WaitOutcome. -/
def webhook (req : WebhookRequest) (channel : Channel) (out : CloseOutcome)
    (_w : WaitOutcome) : HttpResponse × Channel × List Op :=
  let r := handle_github_event req.payload channel out
  ({ body := "", status := 200 }, r.1, r.2)

/-! Concrete fixtures used by the theorems. -/

/-- PR 42 of acme/widgets, as in end-to-end scenario 1 of the spec. -/
def pr42 : PR :=
  { number := 42, title := "Add retry logic", merged := false,
    html_url := "https://github.com/acme/widgets/pull/42", user_login := "alice" }

/-- A pull_request opened payload for PR 42. -/
def openedPayload : Payload :=
  { repository_full_name := some "acme/widgets", action := some "opened",
    pull_request := some pr42, review := none, comment := none,
    issue := none, ref := none }

/-- An empty destination channel. -/
def emptyChannel : Channel := { threads := [], nextId := 1 }

/-- A push payload for the tracked branch main. -/
def pushMainPayload : Payload :=
  { repository_full_name := some "acme/widgets", action := none,
    pull_request := none, review := none, comment := none, issue := none,
    ref := some "refs/heads/main" }

/-- A push payload for the untracked branch feature-x. -/
def pushFeaturePayload : Payload :=
  { repository_full_name := some "acme/widgets", action := none,
    pull_request := none, review := none, comment := none, issue := none,
    ref := some "refs/heads/feature-x" }

/-- PR 7 of acme/widgets, merged. -/
def pr7 : PR :=
  { number := 7, title := "Fix race", merged := true,
    html_url := "https://github.com/acme/widgets/pull/7", user_login := "carol" }

/-- The open thread for PR 7. -/
def thread7 : Thread :=
  { id := 1, name := "[acme/widgets] PR #7: Fix race",
    archived := false, locked := false }

/-- A channel holding only the PR 7 thread. -/
def channel7 : Channel := { threads := [thread7], nextId := 2 }

/-- A pull_request closed payload for PR 7 with merged true (scenario 4). -/
def closedPayload : Payload :=
  { repository_full_name := some "acme/widgets", action := some "closed",
    pull_request := some pr7, review := none, comment := none,
    issue := none, ref := none }

/-- The PR 7 thread as it stands after one successful close. -/
def closedThread7 : Thread :=
  { id := 1, name := "[CLOSED] [acme/widgets] PR #7: Fix race",
    archived := true, locked := true }

/-- A channel holding only the already-closed PR 7 thread. -/
def channel7closed : Channel := { threads := [closedThread7], nextId := 2 }

/-- Plain issue 5: no pull_request linkage. -/
def issue5 : Issue := { number := 5, has_pull_request := false }

/-- A comment by bob. -/
def bobComment : Comment := { user_login := "bob", body := "Looks good" }

/-- An issue_comment payload on plain issue 5: a comment key and an issue key,
no pull_request object and no issue.pull_request linkage. -/
def plainIssueCommentPayload : Payload :=
  { repository_full_name := some "acme/widgets", action := some "created",
    pull_request := none, review := none, comment := some bobComment,
    issue := some issue5, ref := none }

/-- A thread whose name matches the number-5 lookup name. -/
def thread5 : Thread :=
  { id := 1, name := "[acme/widgets] PR #5: Fix pagination",
    archived := false, locked := false }

/-- A channel holding only the number-5 thread. -/
def channel5 : Channel := { threads := [thread5], nextId := 2 }

/-- Issue 42 carrying the issue.pull_request linkage: a genuine PR comment. -/
def issue42 : Issue := { number := 42, has_pull_request := true }

/-- An issue_comment payload on PR 42 (linkage present). -/
def prCommentPayload : Payload :=
  { repository_full_name := some "acme/widgets", action := some "created",
    pull_request := none, review := none, comment := some bobComment,
    issue := some issue42, ref := none }

/-- An approving review by dave. -/
def approvedReview : Review :=
  { state := "approved", body := some "Nice work", user_login := "dave" }

/-- A review payload shape that reaches handle_pr_review: review and
pull_request keys present, no action key. -/
def reviewPayload : Payload :=
  { repository_full_name := some "acme/widgets", action := none,
    pull_request := some pr42, review := some approvedReview, comment := none,
    issue := none, ref := none }

/-- The stale thread for PR 42, named from an earlier title. -/
def staleThread42 : Thread :=
  { id := 1, name := "[acme/widgets] PR #42: Old title",
    archived := false, locked := false }

/-- A channel holding only the stale PR 42 thread. -/
def channelStale : Channel := { threads := [staleThread42], nextId := 2 }

/-- PR 42 with its current title, which differs from the stale thread name. -/
def pr42retitled : PR :=
  { number := 42, title := "Improved retry logic", merged := false,
    html_url := "https://github.com/acme/widgets/pull/42", user_login := "alice" }

/-! Theorems settling the claims. -/

/-- Appending strings appends their character data. -/
theorem str_data_append (s t : String) : (s ++ t).data = s.data ++ t.data := by
  cases s
  cases t
  rfl

/-- C1: the claim says a request with no signature header is rejected with 400
before any event processing. In the code the /webhook route performs no
signature verification at all: a request with no signature header is answered
200 with an empty body, and the event is fully processed — here a push to
main produces the environment update message. -/
theorem webhook_accepts_unsigned_request :
    (webhook
        { payload := pushMainPayload, signature_header := none, raw_body := [] }
        emptyChannel CloseOutcome.ok WaitOutcome.completed).1 =
      { body := "", status := 200 } ∧
    (webhook
        { payload := pushMainPayload, signature_header := none, raw_body := [] }
        emptyChannel CloseOutcome.ok WaitOutcome.completed).2.2 =
      [Op.channelSend "Environment update: main branch has been updated."] := by
  exact ⟨rfl, by decide⟩

/-- C2: the claim says a PR opened payload creates the thread
[acme/widgets] PR #42: Add retry logic and posts the introduction. In the code
handle_pull_request calls create_pr_thread with the repo_name argument
missing; the TypeError is caught and logged, so processing the opened payload
changes nothing and emits nothing. The second and third conjuncts show the
name create_pr_thread would derive and the operations it would perform had the
call supplied both arguments. -/
theorem pr_opened_creates_no_thread :
    handle_github_event openedPayload emptyChannel CloseOutcome.ok =
      (emptyChannel, []) ∧
    prThreadName "acme/widgets" 42 "Add retry logic" =
      "[acme/widgets] PR #42: Add retry logic" ∧
    (create_pr_thread pr42 "acme/widgets" emptyChannel).2.2 =
      [Op.createThread "[acme/widgets] PR #42: Add retry logic",
       Op.threadSend 1
         "A new Pull Request is live here: https://github.com/acme/widgets/pull/42 and created by alice."] := by
  exact ⟨by decide, by decide, by decide⟩

/-- C3 counterexample: a comment payload on plain issue 5 — no pull_request
object and no issue.pull_request linkage — is not classified Unknown: the
dispatcher routes it to handle_pr_comment, which posts the comment into the
thread matching the number-5 lookup name, a thread operation. -/
theorem plain_issue_comment_not_unknown :
    handle_github_event plainIssueCommentPayload channel5 CloseOutcome.ok =
      (channel5, [Op.threadSend 1 "New comment by bob:\nLooks good"]) := by
  decide

/-- C3 amended: every payload with a comment key that reaches the comment
branch (no review key, and not both pull_request and action) is treated as a
PR comment regardless of pull_request linkage: the number is taken from the
issue object — whose pull_request linkage flag is never consulted, as the
quantification over the issue shows — and the comment is posted exactly when
a thread with the matching lookup name exists. -/
theorem comment_branch_ignores_linkage :
    ∀ (data : Payload) (channel : Channel) (out : CloseOutcome) (c : Comment)
      (i : Issue) (r : String),
      data.pull_request = none → data.review = none → data.comment = some c →
      data.issue = some i → data.repository_full_name = some r →
      handle_github_event data channel out =
        (match get_thread channel i.number r with
         | some t => (channel, [Op.threadSend t.id (commentMessage c)])
         | none => (channel, [])) := by
  intro data channel out c i r hpr hrev hc hi hrepo
  cases hg : get_thread channel i.number r <;>
    simp [handle_github_event, handle_pr_comment, commentEventNumber,
      caughtByDispatcher, hpr, hrev, hc, hi, hrepo, hg]

/-- Closed instance of the amended C3 theorem at the plain issue 5 payload. -/
theorem comment_branch_ignores_linkage_witness :
    handle_github_event plainIssueCommentPayload channel5 CloseOutcome.ok =
      (match get_thread channel5 issue5.number "acme/widgets" with
       | some t => (channel5, [Op.threadSend t.id (commentMessage bobComment)])
       | none => (channel5, [])) :=
  comment_branch_ignores_linkage plainIssueCommentPayload channel5
    CloseOutcome.ok bobComment issue5 "acme/widgets" rfl rfl rfl rfl rfl

/-- C4: the claim says two sequential resolve-or-create calls return handles
to the same thread. In the code get_or_create_thread always raises: its first
internal call omits the repo_name argument and there is no try block, so no
invocation — first or second — ever returns a thread handle. -/
theorem get_or_create_thread_raises :
    ∀ (channel : Channel) (pr : PR),
      get_or_create_thread channel pr =
        Except.error (PyError.typeError
          "get_thread() missing 1 required positional argument: repo_name") := by
  intro channel pr
  rfl

/-- C5: the claim says a closed payload with merged true sends a merged
message and archives, locks and renames the thread. In the code
handle_pr_closure calls get_thread with the repo_name argument missing; the
TypeError is caught and logged, so the channel is unchanged and nothing is
sent — even though, as the second conjunct shows, the thread was present and
a correct-arity lookup finds it. -/
theorem merged_pr_closure_does_nothing :
    handle_github_event closedPayload channel7 CloseOutcome.ok =
      (channel7, []) ∧
    get_thread channel7 7 "acme/widgets" = some thread7 := by
  exact ⟨by decide, by decide⟩

/-- C6 counterexample: invoking close_pr_thread on the already closed thread
of PR 7 prepends the CLOSED marker a second time, so the name carries the
marker twice, not exactly once as the claim states. -/
theorem second_close_doubles_marker :
    ((close_pr_thread pr7 closedThread7 channel7closed
        CloseOutcome.ok).1.threads.map Thread.name) =
      ["[CLOSED] [CLOSED] [acme/widgets] PR #7: Fix race"] := by
  decide

/-- C6 amended: close_pr_thread never propagates an exception — every except
clause swallows, so the embedding returns normally for every CloseOutcome —
but a successful close unconditionally renames the thread to the CLOSED
marker prepended to its current name; applied to a thread already carrying
the marker, the resulting name carries it twice. -/
theorem close_prepends_marker_again :
    ∀ (pr : PR) (t : Thread) (channel : Channel),
      t ∈ channel.threads →
      pyStartsWith t.name "[CLOSED] " = true →
      ∃ u, u ∈ (close_pr_thread pr t channel CloseOutcome.ok).1.threads ∧
        u.name = "[CLOSED] " ++ t.name ∧
        pyStartsWith u.name "[CLOSED] [CLOSED] " = true ∧
        u.archived = true ∧ u.locked = true := by
  intro pr t channel hmem hstart
  simp only [pyStartsWith] at hstart
  refine ⟨{ t with archived := true, locked := true, name := "[CLOSED] " ++ t.name }, ?_, rfl, ?_, rfl, rfl⟩
  · have h := List.mem_map_of_mem (fun u : Thread =>
      if u.id == t.id then
        { u with archived := true, locked := true, name := "[CLOSED] " ++ t.name }
      else u) hmem
    simpa [close_pr_thread] using h
  · show ("[CLOSED] [CLOSED] ".data).isPrefixOf (("[CLOSED] " ++ t.name).data) = true
    have h1 : ("[CLOSED] ".data : List Char) <+: t.name.data :=
      List.isPrefixOf_iff_prefix.mp hstart
    obtain ⟨rest, hrest⟩ := h1
    rw [List.isPrefixOf_iff_prefix, str_data_append, ← hrest]
    have h3 : ("[CLOSED] [CLOSED] ".data : List Char) =
        "[CLOSED] ".data ++ "[CLOSED] ".data := by decide
    rw [h3, ← List.append_assoc]
    exact List.prefix_append _ _

/-- Closed instance of the amended C6 theorem at the already closed PR 7
thread. -/
theorem close_prepends_marker_again_witness :
    ∃ u, u ∈ (close_pr_thread pr7 closedThread7 channel7closed
        CloseOutcome.ok).1.threads ∧
      u.name = "[CLOSED] " ++ closedThread7.name ∧
      pyStartsWith u.name "[CLOSED] [CLOSED] " = true ∧
      u.archived = true ∧ u.locked = true :=
  close_prepends_marker_again pr7 closedThread7 channel7closed (by decide)
    (by decide)

/-- C7 counterexample: a comment event referencing PR 42 — issue.pull_request
linkage present — arriving when no thread exists is dropped: the channel is
unchanged and nothing is sent, so no thread is created lazily. -/
theorem comment_without_thread_dropped :
    handle_github_event prCommentPayload emptyChannel CloseOutcome.ok =
      (emptyChannel, []) := by
  decide

/-- C7 amended: the review and comment handlers only look threads up; when no
thread with the matching lookup name exists they log a warning and drop the
event, creating nothing and sending nothing. -/
theorem missing_thread_events_dropped :
    (∀ (data : Payload) (channel : Channel) (pr : PR) (rv : Review) (r : String),
      data.pull_request = some pr → data.review = some rv →
      data.repository_full_name = some r →
      get_thread channel pr.number r = none →
      handle_pr_review data channel = Except.ok (channel, [])) ∧
    (∀ (data : Payload) (channel : Channel) (c : Comment) (n : Nat) (r : String),
      data.repository_full_name = some r → commentEventNumber data = some n →
      data.comment = some c →
      get_thread channel n r = none →
      handle_pr_comment data channel = Except.ok (channel, [])) := by
  constructor
  · intro data channel pr rv r hpr hrv hr hg
    simp [handle_pr_review, hpr, hrv, hr, hg]
  · intro data channel c n r hr hn hc hg
    simp [handle_pr_comment, hr, hn, hc, hg]

/-- Closed instance of the amended C7 theorem: a review on PR 42 and a comment
on PR 42 both arrive at an empty channel and are dropped. -/
theorem missing_thread_events_dropped_witness :
    handle_pr_review reviewPayload emptyChannel = Except.ok (emptyChannel, []) ∧
    handle_pr_comment prCommentPayload emptyChannel = Except.ok (emptyChannel, []) :=
  ⟨missing_thread_events_dropped.1 reviewPayload emptyChannel pr42
      approvedReview "acme/widgets" rfl rfl rfl (by decide),
   missing_thread_events_dropped.2 prCommentPayload emptyChannel bobComment 42
      "acme/widgets" rfl (by decide) rfl (by decide)⟩

/-- C8: for every payload with a ref key, the branch is the last
slash-delimited segment of ref and the environment update is sent iff that
branch is main, test or develop; concretely, refs/heads/main produces the
message through the full dispatch chain and refs/heads/feature-x produces
nothing. -/
theorem push_sends_iff_tracked_branch :
    (∀ (data : Payload) (r : String) (channel : Channel),
      data.ref = some r →
      ((∃ msg, handle_push data channel =
          Except.ok (channel, [Op.channelSend msg])) ↔
        (branchOfRef r = "main" ∨ branchOfRef r = "test" ∨
          branchOfRef r = "develop"))) ∧
    branchOfRef "refs/heads/main" = "main" ∧
    branchOfRef "refs/heads/feature-x" = "feature-x" ∧
    handle_github_event pushMainPayload emptyChannel CloseOutcome.ok =
      (emptyChannel,
        [Op.channelSend "Environment update: main branch has been updated."]) ∧
    handle_github_event pushFeaturePayload emptyChannel CloseOutcome.ok =
      (emptyChannel, []) := by
  refine ⟨?_, by decide, by decide, by decide, by decide⟩
  intro data r channel href
  constructor
  · rintro ⟨msg, hmsg⟩
    by_cases h : branchOfRef r = "main" ∨ branchOfRef r = "test" ∨
        branchOfRef r = "develop"
    · exact h
    · simp [handle_push, href, h] at hmsg
  · intro h
    exact ⟨environmentUpdateMessage (branchOfRef r), by simp [handle_push, href, h]⟩

/-- Closed instance of the C8 theorem at the refs/heads/main push payload. -/
theorem push_sends_iff_tracked_branch_witness :
    ∃ msg, handle_push pushMainPayload emptyChannel =
      Except.ok (emptyChannel, [Op.channelSend msg]) :=
  (push_sends_iff_tracked_branch.1 pushMainPayload "refs/heads/main"
    emptyChannel rfl).2 (Or.inl (by decide))

/-- C9: the webhook route returns an empty 200 response for every request,
every channel state, every platform-call outcome and both wait outcomes:
downstream failures — unhandled payload shapes, the swallowed TypeErrors of
the handlers, the 60 second timeout — never reach the HTTP response. -/
theorem webhook_always_returns_200 :
    ∀ (req : WebhookRequest) (channel : Channel) (out : CloseOutcome)
      (w : WaitOutcome),
      (webhook req channel out w).1 = { body := "", status := 200 } := by
  intro req channel out w
  rfl

/-- C10: get_thread matches the PR 42 lookup name by prefix and finds the
stale thread, but create_pr_thread compares full names for equality, misses
because the title changed, and creates a second thread; afterwards the channel
holds two threads with distinct names that both carry the PR 42 lookup name as
a prefix, breaking the one-thread-per-name-key invariant. -/
theorem stale_title_duplicate_thread :
    get_thread channelStale 42 "acme/widgets" = some staleThread42 ∧
    ((create_pr_thread pr42retitled "acme/widgets" channelStale).2.1.threads.map
        Thread.name =
      ["[acme/widgets] PR #42: Old title",
       "[acme/widgets] PR #42: Improved retry logic"]) ∧
    ((create_pr_thread pr42retitled "acme/widgets" channelStale).2.1.threads.all
        (fun t => pyStartsWith t.name (lookupName "acme/widgets" 42))) = true := by
  exact ⟨by decide, by decide, by decide⟩

end Bot
